import Mathlib

/-!
Verification development for the dainik-savera video transcoding service.

The TypeScript sources are shallowly embedded as pure Lean functions:

* every external effect (queue depth query, registry HTTP call, queue
  publish, manifest file write) is recorded as an `Event` in a trace;
* the outcome of each external call (did the HTTP call succeed, did the
  ffmpeg encode succeed, what did the registry return) is supplied by an
  environment record, so each source function becomes a pure function
  from its inputs and environment to a trace plus a result;
* JavaScript numbers that hold counts are embedded as `Nat` (and as `Int`
  where the source subtracts, since JS subtraction can go negative);
* promise rejection / thrown exceptions are embedded with explicit result
  types (`Except`, or dedicated result inductives);
* the concurrent per-resolution fan-out (`Promise.all`) is linearized:
  every sub-task's start-time "Processing" report precedes any terminal
  report, matching the phase structure of the source (ffmpeg `start`
  events fire when the processes are spawned, before any terminal event),
  and terminal events are listed in resolution-list order.  The
  properties proved below are insensitive to the order within a phase.
-/

namespace Transcoding

/-- `VideoUploadResolution` from the job interface file: one requested
target rendition (width, height, bitrate in kilobit/s, frame rate). -/
structure VideoUploadResolution where
  width : Nat
  height : Nat
  bitrate : Nat
  fps : Nat
deriving DecidableEq, Repr

/-- `VideoTranscodeJob` from the job interface file: the payload of one
queue message. -/
structure VideoTranscodeJob where
  inputPath : String
  outputPath : String
  resolutions : List VideoUploadResolution
  queuedTaskId : Nat
deriving DecidableEq, Repr

/-- The queue name from the configuration (`RABBITMQ_CONFIG.queue`,
default `transcoding-video`). -/
def QUEUE_NAME : String := "transcoding-video"

/-! ### JavaScript string `replace` (first occurrence)

The source computes the manifest bandwidth as
`resolution.bitrate.toString().replace("k", "000")`.  JavaScript's
`String.prototype.replace` with a string pattern replaces only the first
occurrence; we embed that faithfully on character lists (for the
non-empty patterns the source uses). -/

/-- Replace the first occurrence of `pat` (non-empty) in a character
list by `repl`; identity when `pat` does not occur. -/
def listReplaceFirst (pat repl : List Char) : List Char → List Char
  | [] => []
  | c :: cs =>
      if pat.isPrefixOf (c :: cs) then repl ++ (c :: cs).drop pat.length
      else c :: listReplaceFirst pat repl cs

/-- JavaScript `s.replace(pat, repl)` for a string pattern (first
occurrence only). -/
def jsReplace (s pat repl : String) : String :=
  ⟨listReplaceFirst pat.data repl.data s.data⟩

/-- The bandwidth string the source writes for a rendition:
`bitrate.toString().replace("k", "000")` with `bitrate : number`. -/
def bandwidthOf (bitrate : Nat) : String :=
  jsReplace (toString bitrate) "k" "000"

/-- A successful sub-task's record (`Playlist` interface in the ffmpeg
utils file). -/
structure Playlist where
  resolution : VideoUploadResolution
  path : String
  bandwidth : String
deriving DecidableEq, Repr

/-- POSIX `path.join` for the two-component joins the source performs
(plain relative component appended to a base). -/
def pathJoin (a b : String) : String := a ++ "/" ++ b

/-- The per-resolution working folder name: `` `${resolution.height}p` ``. -/
def resFolderName (r : VideoUploadResolution) : String :=
  toString r.height ++ "p"

/-- The per-resolution working directory:
`path.join(outputDir, `${resolution.height}p`)`. -/
def resFolder (outputDir : String) (r : VideoUploadResolution) : String :=
  pathJoin outputDir (resFolderName r)

/-- The relative playlist path a successful sub-task reports:
`` `${resolution.height}p/index.m3u8` ``. -/
def relativePlaylistPath (r : VideoUploadResolution) : String :=
  toString r.height ++ "p/index.m3u8"

/-- The `Playlist` value resolved by a successful sub-task
(`transcodeResolution`'s `end` handler). -/
def mkPlaylist (r : VideoUploadResolution) : Playlist :=
  { resolution := r
  , path := relativePlaylistPath r
  , bandwidth := bandwidthOf r.bitrate }

/-! ### Observable effects

Every externally visible action of the pipeline is one `Event`.  A
registry HTTP call that fails produces no event (the registry never saw
an applied update); whether each call succeeds is part of the
environment. -/

/-- One externally visible effect of the pipeline. -/
inductive Event where
  /-- `channel.checkQueue(queue)` — the scheduler's depth query. -/
  | checkQueue (queue : String)
  /-- `GET queued-tasks/pendingList?limit=N` — the registry fetch. -/
  | registryFetch (limit : Int)
  /-- `channel.sendToQueue(queue, payload)` — a job message published. -/
  | publish (queue : String) (payload : VideoTranscodeJob)
  /-- `PUT queued-tasks/update/{id} {status, ...}` applied by the registry. -/
  | putStatus (taskId : Nat) (status : String)
  /-- `PATCH queued-tasks/updateStatus/{id} {status, ...}` applied by the registry. -/
  | patchStatus (taskId : Nat) (status : String)
  /-- `POST videos/create {queued_task_id, video_url}` applied by the registry. -/
  | videosCreate (taskId : Nat) (videoUrl : String)
  /-- `fs.writeFileSync(path, content)` — the manifest write. -/
  | writeFile (path : String) (content : String)
deriving DecidableEq, Repr

/-- Reachability of the task registry from each call site of the
orchestrator: `true` means the HTTP call succeeds, `false` means the
underlying axios promise rejects. -/
structure RegistryEnv where
  /-- The `PUT ... {status: "Processing"}` inside the ffmpeg `start` handler. -/
  startReportOk : Bool
  /-- The `PUT ... {status: "Error"}` inside the ffmpeg `error` handler. -/
  errorReportOk : Bool
  /-- The `POST videos/create` after the manifest write. -/
  videosCreateOk : Bool
  /-- The final `PUT ... {status: "Completed"}`. -/
  completedReportOk : Bool
deriving DecidableEq, Repr

/-- The outcome of one external ffmpeg encode: success, or failure with
the diagnostic message of the `error` event. -/
structure EncodeOutcome where
  ok : Bool
  errMsg : String
deriving DecidableEq, Repr

/-- How one sub-task's promise (`transcodeResolution`) settles. -/
inductive SubtaskResult where
  /-- The `end` handler ran: the promise resolves with a `Playlist`. -/
  | resolved (p : Playlist)
  /-- The `error` handler ran to completion: the promise rejects. -/
  | rejected (errMsg : String)
  /-- The `error` handler's own `await axios.put(...)` rejected before
  `reject(err)` was reached: the promise never settles. -/
  | unsettled
deriving DecidableEq, Repr

/-- Start-phase events of one sub-task: the `start` handler's
`PUT {status: "Processing"}` (no event when that call itself fails —
the rejection inside the `start` callback is unhandled and does not
affect the encode). -/
def subtaskStartEvents (env : RegistryEnv) (queuedTaskId : Nat) : List Event :=
  if env.startReportOk then [.putStatus queuedTaskId "Processing"] else []

/-- Terminal-phase events and settlement of one sub-task
(`transcodeResolution`'s `end` / `error` handlers). -/
def subtaskTerminal (env : RegistryEnv) (queuedTaskId : Nat)
    (r : VideoUploadResolution) (o : EncodeOutcome) :
    List Event × SubtaskResult :=
  if o.ok then
    ([], .resolved (mkPlaylist r))
  else if env.errorReportOk then
    ([.putStatus queuedTaskId "Error"], .rejected o.errMsg)
  else
    ([], .unsettled)

/-- One stream entry of the master playlist:
`` `#EXT-X-STREAM-INF:BANDWIDTH=${p.bandwidth},RESOLUTION=${w}x${h}\n${p.path}` ``. -/
def playlistEntry (p : Playlist) : String :=
  "#EXT-X-STREAM-INF:BANDWIDTH=" ++ p.bandwidth ++ ",RESOLUTION=" ++
    toString p.resolution.width ++ "x" ++ toString p.resolution.height ++
    "\n" ++ p.path

/-- JavaScript `array.join("\n")`. -/
def joinNewline : List String → String
  | [] => ""
  | [a] => a
  | a :: rest => a ++ "\n" ++ joinNewline rest

/-- The master manifest content the source writes:
`"#EXTM3U\n" + playlistResults.map(entry).join("\n")`. -/
def manifestContent (ps : List Playlist) : String :=
  "#EXTM3U\n" ++ joinNewline (ps.map playlistEntry)

/-- How one `transcodeVideo` invocation ends. -/
inductive JobResult where
  /-- Both registry reports succeeded; the promise resolves. -/
  | completed
  /-- Some awaited step threw; the `catch` rethrows and the promise
  rejects with that error. -/
  | failed (errMsg : String)
  /-- An awaited promise never settles (a failing sub-task whose error
  report itself failed): `transcodeVideo` never returns. -/
  | hung
deriving DecidableEq, Repr

/-- The settlement of `Promise.all` over the sub-task results: it
rejects as soon as any promise rejects, hangs if none rejects but some
never settles, and otherwise resolves with the playlists in order. -/
def promiseAll (rs : List SubtaskResult) : Except (Option String) (List Playlist) :=
  match rs with
  | [] => .ok []
  | .rejected e :: _ => .error (some e)
  | .unsettled :: rest =>
      match promiseAll rest with
      | .error (some e) => .error (some e)
      | _ => .error none
  | .resolved p :: rest =>
      match promiseAll rest with
      | .ok ps => .ok (p :: ps)
      | .error e => .error e

/-- Shallow embedding of `transcodeVideo`: the fresh per-job output
directory (`uuidv4()`-named in the source) is the `outputBasePath`
parameter; `outcomes` pairs with `resolutions` positionally (one encode
outcome per requested rendition). -/
def transcodeVideo (env : RegistryEnv) (outputBasePath : String)
    (resolutions : List VideoUploadResolution) (queuedTaskId : Nat)
    (outcomes : List EncodeOutcome) : List Event × JobResult :=
  let pairs := resolutions.zip outcomes
  let starts := pairs.flatMap fun _ => subtaskStartEvents env queuedTaskId
  let terminals := pairs.flatMap fun rq => (subtaskTerminal env queuedTaskId rq.1 rq.2).1
  let results := pairs.map fun rq => (subtaskTerminal env queuedTaskId rq.1 rq.2).2
  let pre := starts ++ terminals
  match promiseAll results with
  | .error (some e) => (pre, .failed e)
  | .error none => (pre, .hung)
  | .ok ps =>
      let masterPath := pathJoin outputBasePath "master.m3u8"
      let wrote := pre ++ [.writeFile masterPath (manifestContent ps)]
      if env.videosCreateOk then
        let created := wrote ++ [.videosCreate queuedTaskId masterPath]
        if env.completedReportOk then
          (created ++ [.putStatus queuedTaskId "Completed"], .completed)
        else
          (created, .failed "registry error")
      else
        (wrote, .failed "registry error")

/-- A delivered queue message, as the consumer callback sees it:
either its body parses as JSON or `JSON.parse` throws. -/
inductive Delivery where
  | malformed
  | wellFormed (job : VideoTranscodeJob)
deriving DecidableEq, Repr

/-- The fate of one delivered message at the broker. -/
inductive ConsumerResult where
  /-- `channel.ack(msg)`. -/
  | acked
  /-- `channel.nack(msg, false, requeue)`. -/
  | nacked (requeue : Bool)
  /-- The callback threw outside the `try` block: the message is
  neither acked nor nacked and stays unacknowledged. -/
  | unhandledException
  /-- The awaited `transcodeVideo` never settles: the callback never
  finishes, the message stays unacknowledged. -/
  | pending
deriving DecidableEq, Repr

/-- Shallow embedding of the `startTranscodeVideoConsumer` message
callback for one delivery.  `JSON.parse` runs before the `try` block,
so a malformed body throws out of the callback. -/
def consumeMessage (env : RegistryEnv) (outputBasePath : String)
    (outcomes : List EncodeOutcome) (d : Delivery) :
    List Event × ConsumerResult :=
  match d with
  | .malformed => ([], .unhandledException)
  | .wellFormed job =>
      let tr := transcodeVideo env outputBasePath job.resolutions job.queuedTaskId outcomes
      match tr.2 with
      | .completed => (tr.1, .acked)
      | .failed _ => (tr.1, .nacked false)
      | .hung => (tr.1, .pending)

/-! ### Queue transport (`rabbitmq.connection.ts` and its callers)

The module-level `channel` variable is embedded as an `Option Channel`
parameter: `none` before `connectRabbitMQ` has assigned it, `some c`
afterwards.  `getChannel` throws `"RabbitMQ channel not initialized"`
on `none`; the embedding returns `Except String`. -/

/-- The broker channel state the callers observe: the message count
`checkQueue` reports for the work queue. -/
structure Channel where
  messageCount : Nat
deriving DecidableEq, Repr

/-- Shallow embedding of `getChannel`. -/
def getChannel (channel : Option Channel) : Except String Channel :=
  match channel with
  | none => .error "RabbitMQ channel not initialized"
  | some c => .ok c

/-- `sendTranscodeVideoJob` (producer): `getChannel()`, assert the
durable queue, publish the payload persistently. -/
def sendTranscodeVideoJob (channel : Option Channel)
    (payload : VideoTranscodeJob) : Except String (List Event) :=
  (getChannel channel).map fun _ => [.publish QUEUE_NAME payload]

/-- `startTranscodeVideoConsumer`'s setup step: `getChannel()`, assert
the queue, set prefetch 1, register the consumer. -/
def startConsumerSetup (channel : Option Channel) : Except String Unit :=
  (getChannel channel).map fun _ => ()

/-! ### Scheduler (`pending-tasks.scheduler.ts`) -/

/-- `MAX_QUEUE_CAPACITY` from `getAvailableQueueSlots`. -/
def MAX_QUEUE_CAPACITY : Nat := 10

/-- `getAvailableQueueSlots`: `MAX_QUEUE_CAPACITY - messageCount` as a
JS number, which can be negative, hence `Int`. -/
def getAvailableQueueSlots (channel : Option Channel) : Except String Int :=
  (getChannel channel).map fun c =>
    (MAX_QUEUE_CAPACITY : Int) - (c.messageCount : Int)

/-- The nested `videoUpload` object of a pending task as the scheduler
reads it. -/
structure VideoUpload where
  path : String
  title : String
  resolution : List VideoUploadResolution
deriving DecidableEq, Repr

/-- A pending task as returned by `GET queued-tasks/pendingList`. -/
structure Task where
  id : Nat
  videoUpload : VideoUpload
deriving DecidableEq, Repr

/-- One scheduler cycle's environment: the channel state, what the
registry returns, and the outcome of each publish / status call. -/
structure SchedulerEnv where
  /-- The module-level channel (`none` before `connectRabbitMQ`). -/
  channel : Option Channel
  /-- Does `GET pendingList` succeed? (`fetchPendingTasks` returns `[]`
  on failure.) -/
  registryOk : Bool
  /-- The task list the registry returns on success. -/
  registryTasks : List Task
  /-- Does `channel.sendToQueue` succeed for a given task's payload? -/
  publishOk : Task → Bool
  /-- Does `PATCH queued-tasks/updateStatus/{id}` succeed?
  (`updateTaskStatus` swallows its own failure.) -/
  errorReportOk : Bool
  /-- `Date.now()` at the moment `processTask` builds the payload. -/
  nowMs : Nat

/-- The job payload `processTask` builds from a task. -/
def jobPayload (nowMs : Nat) (task : Task) : VideoTranscodeJob :=
  { inputPath := task.videoUpload.path
  , outputPath := "transcoded/" ++ toString nowMs ++ "-" ++ task.videoUpload.title
  , resolutions := task.videoUpload.resolution
  , queuedTaskId := task.id }

/-- Shallow embedding of `processTask`: publish the payload; on publish
failure report the task as errored via `updateTaskStatus` (which itself
may fail silently).  The post-publish status update present in the
source as a comment (`// await updateTaskStatus(task.id, 'Queued')`) is
disabled and therefore absent here. -/
def processTask (env : SchedulerEnv) (task : Task) : List Event :=
  if env.publishOk task then
    [.publish QUEUE_NAME (jobPayload env.nowMs task)]
  else if env.errorReportOk then
    [.patchStatus task.id "Error"]
  else
    []

/-- `fetchPendingTasks`: the GET attempt is recorded; on failure the
function catches and returns `[]`. -/
def fetchPendingTasks (env : SchedulerEnv) : List Task :=
  if env.registryOk then env.registryTasks else []

/-- Shallow embedding of one `processPendingTasks` cycle.  With an
uninitialized channel the first step throws and the outer `catch` only
logs, so the trace is empty.  Otherwise: depth query; if
`availableSlots <= 0` the cycle stops; otherwise one registry fetch
with `limit = availableSlots`, then each returned task is processed
sequentially in order. -/
def processPendingTasks (env : SchedulerEnv) : List Event :=
  match env.channel with
  | none => []
  | some c =>
      let available : Int := (MAX_QUEUE_CAPACITY : Int) - (c.messageCount : Int)
      if available ≤ 0 then
        [.checkQueue QUEUE_NAME]
      else
        [.checkQueue QUEUE_NAME, .registryFetch available] ++
          (fetchPendingTasks env).flatMap (processTask env)

/-! ### Trace observations -/

/-- The job payloads published in a trace, in order. -/
def publishedPayloads (tr : List Event) : List VideoTranscodeJob :=
  tr.filterMap fun e =>
    match e with
    | .publish _ p => some p
    | _ => none

/-- `true` exactly on registry-fetch events. -/
def isRegistryFetch : Event → Bool
  | .registryFetch _ => true
  | _ => false

/-- `true` exactly on publish events. -/
def isPublish : Event → Bool
  | .publish _ _ => true
  | _ => false

/-- `true` exactly on manifest (file) writes. -/
def isWriteFile : Event → Bool
  | .writeFile _ _ => true
  | _ => false

/-- The status carried by a registry status-update event. -/
def statusOfEvent : Event → Option String
  | .putStatus _ s => some s
  | .patchStatus _ s => some s
  | _ => none

/-- The last task status the registry applied during a trace. -/
def lastReportedStatus (tr : List Event) : Option String :=
  (tr.filterMap statusOfEvent).getLast?

/-! ### Spec-side manifest description (for refinement comparison)

The spec prescribes `BANDWIDTH=<bits-per-second>` with the bandwidth
"scaled from kilobit/s to bit/s (multiply by 1000)".  The following two
definitions follow the spec's words, to be compared against the
source-derived `manifestContent`. -/

/-- The stream-descriptor line exactly as the source templates it, with
the source's bandwidth string. -/
def streamDescriptorLine (r : VideoUploadResolution) : String :=
  "#EXT-X-STREAM-INF:BANDWIDTH=" ++ bandwidthOf r.bitrate ++ ",RESOLUTION=" ++
    toString r.width ++ "x" ++ toString r.height

/-- Spec's words: the stream-descriptor line with `BANDWIDTH` equal to
`bitrate_kbps * 1000` (bits per second). -/
def streamDescriptorLineSpec (r : VideoUploadResolution) : String :=
  "#EXT-X-STREAM-INF:BANDWIDTH=" ++ toString (r.bitrate * 1000) ++ ",RESOLUTION=" ++
    toString r.width ++ "x" ++ toString r.height

/-- Spec's words: the manifest with bit-per-second bandwidth values. -/
def manifestContentSpec (rs : List VideoUploadResolution) : String :=
  "#EXTM3U\n" ++
    joinNewline (rs.map fun r => streamDescriptorLineSpec r ++ "\n" ++ relativePlaylistPath r)

/-! ### Concrete fixtures used by witnesses and counterexamples -/

/-- A 360p rendition at 800 kilobit/s. -/
def res360 : VideoUploadResolution := ⟨640, 360, 800, 30⟩

/-- A 720p rendition at 2500 kilobit/s. -/
def res720 : VideoUploadResolution := ⟨1280, 720, 2500, 30⟩

/-- A second 360p rendition with different width/bitrate (same height). -/
def res360b : VideoUploadResolution := ⟨480, 360, 500, 25⟩

/-- A registry that is reachable at every call site. -/
def regEnvAll : RegistryEnv := ⟨true, true, true, true⟩

/-- A one-rendition job message. -/
def job360 : VideoTranscodeJob := ⟨"in.mp4", "transcoded/1-x", [res360], 7⟩

/-- A two-rendition job message. -/
def jobTwo : VideoTranscodeJob := ⟨"in.mp4", "transcoded/1-x", [res360, res720], 7⟩

/-- A pending task as the registry would return it. -/
def task0 : Task := ⟨7, ⟨"a.mp4", "vid", [res360]⟩⟩

/-- A scheduler environment with queue depth `mc`, the registry
returning `task0`, and every publish and status call succeeding. -/
def schedEnv (mc : Nat) : SchedulerEnv :=
  ⟨some ⟨mc⟩, true, [task0], fun _ => true, true, 111⟩

/-! ## Helper lemmas -/

/-- The last element of a non-empty list whose elements are all `a` is `a`. -/
theorem getLast?_of_all_eq {α : Type} (a : α) :
    ∀ l : List α, l ≠ [] → (∀ x ∈ l, x = a) → l.getLast? = some a := by
  intro l
  induction l with
  | nil => intro h; exact absurd rfl h
  | cons x xs ih =>
      intro _ hall
      cases xs with
      | nil => simp [hall x (by simp)]
      | cons y ys =>
          rw [List.getLast?_cons_cons]
          exact ih (by simp) fun z hz => hall z (List.mem_cons_of_mem x hz)

/-- Every event a sub-task's start phase produces is the "Processing"
status report. -/
theorem mem_subtaskStartEvents (env : RegistryEnv) (qid : Nat) (e : Event)
    (h : e ∈ subtaskStartEvents env qid) : e = .putStatus qid "Processing" := by
  unfold subtaskStartEvents at h
  by_cases hs : env.startReportOk <;> simp [hs] at h
  exact h

/-- Every event a sub-task's terminal phase produces is the "Error"
status report. -/
theorem mem_subtaskTerminal (env : RegistryEnv) (qid : Nat)
    (rq : VideoUploadResolution × EncodeOutcome) (e : Event)
    (h : e ∈ (subtaskTerminal env qid rq.1 rq.2).1) : e = .putStatus qid "Error" := by
  unfold subtaskTerminal at h
  by_cases ho : rq.2.ok
  · simp [ho] at h
  · by_cases he : env.errorReportOk <;> simp [ho, he] at h
    exact h

/-- A successful encode's promise resolves with its playlist. -/
theorem subtaskTerminal_of_ok (env : RegistryEnv) (qid : Nat)
    (r : VideoUploadResolution) (o : EncodeOutcome) (h : o.ok = true) :
    subtaskTerminal env qid r o = ([], .resolved (mkPlaylist r)) := by
  simp [subtaskTerminal, h]

/-- A failed encode with the registry reachable reports "Error" and
rejects its promise. -/
theorem subtaskTerminal_of_fail (env : RegistryEnv) (qid : Nat)
    (r : VideoUploadResolution) (o : EncodeOutcome)
    (herr : env.errorReportOk = true) (h : o.ok = false) :
    subtaskTerminal env qid r o = ([.putStatus qid "Error"], .rejected o.errMsg) := by
  simp [subtaskTerminal, h, herr]

/-- With the registry reachable for error reports, `Promise.all` over
the sub-task settlements rejects when some encode failed. -/
theorem promiseAll_rejects (env : RegistryEnv) (qid : Nat)
    (herr : env.errorReportOk = true) :
    ∀ pairs : List (VideoUploadResolution × EncodeOutcome),
      (∃ rq ∈ pairs, rq.2.ok = false) →
      ∃ e, promiseAll (pairs.map fun rq => (subtaskTerminal env qid rq.1 rq.2).2) =
        .error (some e) := by
  intro pairs
  induction pairs with
  | nil => rintro ⟨rq, h, -⟩; simp at h
  | cons hd tl ih =>
      rintro ⟨rq, hmem, hfail⟩
      rw [List.map_cons]
      by_cases hh : hd.2.ok
      · have hrest : ∃ rq ∈ tl, rq.2.ok = false := by
          rcases List.mem_cons.mp hmem with h | h
          · subst h; rw [hfail] at hh; exact absurd hh (by simp)
          · exact ⟨rq, h, hfail⟩
        obtain ⟨e, he⟩ := ih hrest
        refine ⟨e, ?_⟩
        rw [subtaskTerminal_of_ok env qid hd.1 hd.2 hh]
        show (match promiseAll (tl.map fun rq => (subtaskTerminal env qid rq.1 rq.2).2) with
          | .ok ps => Except.ok (mkPlaylist hd.1 :: ps)
          | .error e => Except.error e) = Except.error (some e)
        rw [he]
      · refine ⟨hd.2.errMsg, ?_⟩
        rw [subtaskTerminal_of_fail env qid hd.1 hd.2 herr (by simpa using hh)]
        rfl

/-- `Promise.all` over the sub-task settlements resolves with the
per-resolution playlists when every encode succeeded. -/
theorem promiseAll_resolves (env : RegistryEnv) (qid : Nat) :
    ∀ pairs : List (VideoUploadResolution × EncodeOutcome),
      (∀ rq ∈ pairs, rq.2.ok = true) →
      promiseAll (pairs.map fun rq => (subtaskTerminal env qid rq.1 rq.2).2) =
        .ok (pairs.map fun rq => mkPlaylist rq.1) := by
  intro pairs
  induction pairs with
  | nil => intro _; rfl
  | cons hd tl ih =>
      intro hall
      have hh : hd.2.ok = true := hall hd (by simp)
      have hrest := fun rq h => hall rq (List.mem_cons_of_mem hd h)
      rw [List.map_cons, subtaskTerminal_of_ok env qid hd.1 hd.2 hh]
      show (match promiseAll (tl.map fun rq => (subtaskTerminal env qid rq.1 rq.2).2) with
        | .ok ps => Except.ok (mkPlaylist hd.1 :: ps)
        | .error e => Except.error e) =
        Except.ok (mkPlaylist hd.1 :: tl.map fun rq => mkPlaylist rq.1)
      rw [ih hrest]

/-- When some encode of a job fails and the registry is reachable for
the error report: the job rejects, no file is written, and the last
applied status is "Error". -/
theorem transcodeVideo_fail_spec (env : RegistryEnv) (base : String)
    (rs : List VideoUploadResolution) (qid : Nat) (outcomes : List EncodeOutcome)
    (herr : env.errorReportOk = true)
    (hfail : ∃ rq ∈ rs.zip outcomes, rq.2.ok = false) :
    (∃ e, (transcodeVideo env base rs qid outcomes).2 = .failed e) ∧
    (transcodeVideo env base rs qid outcomes).1.filter isWriteFile = [] ∧
    lastReportedStatus (transcodeVideo env base rs qid outcomes).1 = some "Error" := by
  obtain ⟨e, he⟩ := promiseAll_rejects env qid herr (rs.zip outcomes) hfail
  have htr : transcodeVideo env base rs qid outcomes =
      (((rs.zip outcomes).flatMap fun _ => subtaskStartEvents env qid) ++
        ((rs.zip outcomes).flatMap fun rq => (subtaskTerminal env qid rq.1 rq.2).1),
       .failed e) := by
    simp only [transcodeVideo]
    rw [he]
  rw [htr]
  refine ⟨⟨e, rfl⟩, ?_, ?_⟩
  · rw [List.filter_append]
    have h1 : (((rs.zip outcomes).flatMap fun _ =>
        subtaskStartEvents env qid).filter isWriteFile) = [] := by
      rw [List.filter_eq_nil_iff]
      intro ev hev
      obtain ⟨rq, -, hm⟩ := List.mem_flatMap.mp hev
      rw [mem_subtaskStartEvents env qid ev hm]
      simp [isWriteFile]
    have h2 : (((rs.zip outcomes).flatMap fun rq =>
        (subtaskTerminal env qid rq.1 rq.2).1).filter isWriteFile) = [] := by
      rw [List.filter_eq_nil_iff]
      intro ev hev
      obtain ⟨rq, -, hm⟩ := List.mem_flatMap.mp hev
      rw [mem_subtaskTerminal env qid rq ev hm]
      simp [isWriteFile]
    rw [h1, h2]
    rfl
  · unfold lastReportedStatus
    rw [List.filterMap_append]
    have hne : (((rs.zip outcomes).flatMap fun rq =>
        (subtaskTerminal env qid rq.1 rq.2).1).filterMap statusOfEvent) ≠ [] := by
      obtain ⟨rq, hmem, hko⟩ := hfail
      have hevmem : Event.putStatus qid "Error" ∈
          (rs.zip outcomes).flatMap fun rq => (subtaskTerminal env qid rq.1 rq.2).1 := by
        refine List.mem_flatMap.mpr ⟨rq, hmem, ?_⟩
        rw [subtaskTerminal_of_fail env qid rq.1 rq.2 herr hko]
        simp
      exact List.ne_nil_of_mem
        (List.mem_filterMap.mpr ⟨Event.putStatus qid "Error", hevmem, rfl⟩)
    rw [List.getLast?_append_of_ne_nil _ hne]
    refine getLast?_of_all_eq "Error" _ hne ?_
    intro s hs
    obtain ⟨ev, hevmem, hevs⟩ := List.mem_filterMap.mp hs
    obtain ⟨rq, -, hm⟩ := List.mem_flatMap.mp hevmem
    rw [mem_subtaskTerminal env qid rq ev hm] at hevs
    simpa [statusOfEvent] using hevs.symm

/-- When every encode of a job succeeds: the manifest is written; the
job completes exactly when both follow-up registry calls succeed, and
otherwise rejects with the registry error. -/
theorem transcodeVideo_ok_spec (env : RegistryEnv) (base : String)
    (rs : List VideoUploadResolution) (qid : Nat) (outcomes : List EncodeOutcome)
    (hlen : rs.length ≤ outcomes.length)
    (hok : ∀ rq ∈ rs.zip outcomes, rq.2.ok = true) :
    Event.writeFile (pathJoin base "master.m3u8") (manifestContent (rs.map mkPlaylist)) ∈
      (transcodeVideo env base rs qid outcomes).1 ∧
    ((env.videosCreateOk = false ∨ env.completedReportOk = false) →
      (transcodeVideo env base rs qid outcomes).2 = .failed "registry error") ∧
    (env.videosCreateOk = true → env.completedReportOk = true →
      (transcodeVideo env base rs qid outcomes).2 = .completed) := by
  have hps : ((rs.zip outcomes).map fun rq => mkPlaylist rq.1) = rs.map mkPlaylist := by
    rw [show (fun rq : VideoUploadResolution × EncodeOutcome => mkPlaylist rq.1) =
        mkPlaylist ∘ Prod.fst from rfl]
    rw [← List.map_map, List.map_fst_zip rs outcomes hlen]
  have hresolve := promiseAll_resolves env qid (rs.zip outcomes) hok
  rw [hps] at hresolve
  simp only [transcodeVideo]
  rw [hresolve]
  by_cases hvc : env.videosCreateOk
  · by_cases hcr : env.completedReportOk
    · simp [hvc, hcr]
    · simp [hvc, hcr]
  · simp [hvc]

/-- `joinNewline` of a non-empty list peels its head. -/
theorem joinNewline_cons (a : String) (l : List String) (h : l ≠ []) :
    joinNewline (a :: l) = a ++ "\n" ++ joinNewline l := by
  cases l with
  | nil => exact absurd rfl h
  | cons b bs => rfl

/-- Joining two-line blocks is the same as joining the flattened lines. -/
theorem joinNewline_pairs :
    ∀ l : List (String × String),
      joinNewline (l.map fun ab => ab.1 ++ "\n" ++ ab.2) =
        joinNewline (l.flatMap fun ab => [ab.1, ab.2]) := by
  intro l
  induction l with
  | nil => rfl
  | cons ab tl ih =>
      cases tl with
      | nil => simp [joinNewline]
      | cons cd tl' =>
          have htl : ((cd :: tl').flatMap fun ab => [ab.1, ab.2]) ≠ [] := by simp
          rw [List.map_cons, List.flatMap_cons]
          rw [joinNewline_cons _ _ (by simp)]
          show _ = joinNewline (ab.1 :: ab.2 :: (cd :: tl').flatMap fun ab => [ab.1, ab.2])
          rw [joinNewline_cons ab.1 _ (by simp), joinNewline_cons ab.2 _ htl, ih]
          simp [String.append_assoc]

/-- The manifest the source writes for successful playlists, expressed
as the newline-join of: the format marker line, then per resolution the
stream-descriptor line followed by its relative playlist path. -/
theorem manifestContent_eq_lines (rs : List VideoUploadResolution) (hne : rs ≠ []) :
    manifestContent (rs.map mkPlaylist) =
      joinNewline ("#EXTM3U" ::
        rs.flatMap fun r => [streamDescriptorLine r, relativePlaylistPath r]) := by
  have hflatne : (rs.flatMap fun r => [streamDescriptorLine r, relativePlaylistPath r]) ≠ [] := by
    cases rs with
    | nil => exact absurd rfl hne
    | cons a l => simp
  rw [joinNewline_cons _ _ hflatne]
  unfold manifestContent
  have hentry : (rs.map mkPlaylist).map playlistEntry =
      (rs.map fun r => (streamDescriptorLine r, relativePlaylistPath r)).map
        fun ab => ab.1 ++ "\n" ++ ab.2 := by
    rw [List.map_map, List.map_map]
    refine List.map_congr_left ?_
    intro r _
    simp [playlistEntry, mkPlaylist, streamDescriptorLine, relativePlaylistPath,
      Function.comp, String.append_assoc]
  rw [hentry, joinNewline_pairs]
  have hflat : ((rs.map fun r => (streamDescriptorLine r, relativePlaylistPath r)).flatMap
      fun ab => [ab.1, ab.2]) =
      rs.flatMap fun r => [streamDescriptorLine r, relativePlaylistPath r] := by
    rw [List.flatMap_map]
  rw [hflat]
  have hmark : ("#EXTM3U\n" : String) = "#EXTM3U" ++ "\n" := by decide
  rw [hmark, String.append_assoc]

/-- `publishedPayloads` distributes over trace concatenation. -/
theorem publishedPayloads_append (l1 l2 : List Event) :
    publishedPayloads (l1 ++ l2) = publishedPayloads l1 ++ publishedPayloads l2 :=
  List.filterMap_append ..

/-- One `processTask` publishes the task's payload exactly when its
publish succeeds, and never on failure. -/
theorem publishedPayloads_processTask (env : SchedulerEnv) (t : Task) :
    publishedPayloads (processTask env t) =
      if env.publishOk t then [jobPayload env.nowMs t] else [] := by
  unfold processTask
  by_cases hp : env.publishOk t
  · simp [hp, publishedPayloads]
  · by_cases he : env.errorReportOk <;> simp [hp, he, publishedPayloads]

/-- Sequentially processing a batch of tasks publishes exactly the
payloads of the tasks whose publish succeeds, in registry order. -/
theorem publishedPayloads_batch (env : SchedulerEnv) :
    ∀ ts : List Task,
      publishedPayloads (ts.flatMap (processTask env)) =
        (ts.filter env.publishOk).map (jobPayload env.nowMs) := by
  intro ts
  induction ts with
  | nil => rfl
  | cons t ts ih =>
      rw [List.flatMap_cons, publishedPayloads_append, ih,
        publishedPayloads_processTask, List.filter_cons]
      by_cases hp : env.publishOk t <;> simp [hp]

/-- The consumer's trace for a well-formed delivery is the
orchestrator's trace, whatever the outcome. -/
theorem consumeMessage_fst (env : RegistryEnv) (base : String)
    (outcomes : List EncodeOutcome) (job : VideoTranscodeJob) :
    (consumeMessage env base outcomes (.wellFormed job)).1 =
      (transcodeVideo env base job.resolutions job.queuedTaskId outcomes).1 := by
  simp only [consumeMessage]
  cases (transcodeVideo env base job.resolutions job.queuedTaskId outcomes).2 <;> rfl

/-- A rejecting orchestrator run makes the consumer nack without
requeue. -/
theorem consumeMessage_snd_failed (env : RegistryEnv) (base : String)
    (outcomes : List EncodeOutcome) (job : VideoTranscodeJob) (e : String)
    (h : (transcodeVideo env base job.resolutions job.queuedTaskId outcomes).2 = .failed e) :
    (consumeMessage env base outcomes (.wellFormed job)).2 = .nacked false := by
  simp only [consumeMessage]
  rw [h]

/-! ## Claim theorems -/

/-- Claim C1: whenever the admission budget
`MAX_QUEUE_CAPACITY - currentDepth` is `<= 0`, the scheduler cycle's
trace is only the depth query: it makes no registry fetch and publishes
no job message. -/
theorem backpressure_skips_cycle (env : SchedulerEnv) (c : Channel)
    (hc : env.channel = some c)
    (hfull : (MAX_QUEUE_CAPACITY : Int) - (c.messageCount : Int) ≤ 0) :
    processPendingTasks env = [Event.checkQueue QUEUE_NAME] ∧
    (processPendingTasks env).filter isRegistryFetch = [] ∧
    (processPendingTasks env).filter isPublish = [] := by
  have htr : processPendingTasks env = [Event.checkQueue QUEUE_NAME] := by
    unfold processPendingTasks
    rw [hc]
    simp [hfull]
  refine ⟨htr, ?_, ?_⟩ <;> rw [htr] <;> rfl

/-- Claim C1 witness: ceiling 10, depth 10 — zero registry calls. -/
theorem backpressure_skips_cycle_witness :
    (schedEnv 10).channel = some ⟨10⟩ ∧
    (MAX_QUEUE_CAPACITY : Int) - ((10 : Nat) : Int) ≤ 0 ∧
    processPendingTasks (schedEnv 10) = [Event.checkQueue QUEUE_NAME] :=
  ⟨rfl, by decide,
    (backpressure_skips_cycle (schedEnv 10) ⟨10⟩ rfl (by decide)).1⟩

/-- Claim C2 (amended): a job with a failing encode sub-task writes no
manifest; provided the sub-task's error status report reaches the
registry, the last applied status is "Error" and the consumer rejects
the message without requeue.  (If that error report itself fails, the
sub-task promise never settles — see the counterexample.) -/
theorem failed_subtask_no_manifest_nacked (env : RegistryEnv) (base : String)
    (job : VideoTranscodeJob) (outcomes : List EncodeOutcome)
    (herr : env.errorReportOk = true)
    (hfail : ∃ rq ∈ job.resolutions.zip outcomes, rq.2.ok = false) :
    (consumeMessage env base outcomes (.wellFormed job)).1.filter isWriteFile = [] ∧
    lastReportedStatus (consumeMessage env base outcomes (.wellFormed job)).1 = some "Error" ∧
    (consumeMessage env base outcomes (.wellFormed job)).2 = .nacked false := by
  obtain ⟨⟨e, he⟩, hfilter, hlast⟩ :=
    transcodeVideo_fail_spec env base job.resolutions job.queuedTaskId outcomes herr hfail
  refine ⟨?_, ?_, consumeMessage_snd_failed env base outcomes job e he⟩
  · rw [consumeMessage_fst]
    exact hfilter
  · rw [consumeMessage_fst]
    exact hlast

/-- Claim C2 witness: a two-rendition job whose 720p encode fails. -/
theorem failed_subtask_no_manifest_nacked_witness :
    regEnvAll.errorReportOk = true ∧
    (∃ rq ∈ jobTwo.resolutions.zip
        [(⟨true, ""⟩ : EncodeOutcome), ⟨false, "boom"⟩], rq.2.ok = false) ∧
    (consumeMessage regEnvAll "/out" [⟨true, ""⟩, ⟨false, "boom"⟩]
        (.wellFormed jobTwo)).2 = .nacked false :=
  ⟨rfl, by decide,
    (failed_subtask_no_manifest_nacked regEnvAll "/out" jobTwo
      [⟨true, ""⟩, ⟨false, "boom"⟩] rfl (by decide)).2.2⟩

/-- Claim C2 counterexample: the claim as stated promises a
reject-without-requeue for every job with a failing sub-task; but when
the failing sub-task's own error report to the registry fails, its
promise never settles, so the message is neither acked nor nacked. -/
theorem failed_subtask_counterexample :
    (consumeMessage ⟨true, false, true, true⟩ "/out" [⟨false, "boom"⟩]
        (.wellFormed job360)).2 = .pending ∧
    (ConsumerResult.pending ≠ .nacked false) ∧
    (ConsumerResult.pending ≠ .acked) := by
  refine ⟨rfl, by decide, by decide⟩

/-- Claim C3 (code bug): the BANDWIDTH value written for a successful
sub-task is the configured bitrate rendered unchanged, not scaled to
bit/s — `bitrate.toString().replace("k", "000")` is the identity on a
numeric bitrate, so at 800 kilobit/s the manifest carries 800, not
800000. -/
theorem bandwidth_not_scaled :
    bandwidthOf 800 = "800" ∧
    bandwidthOf 800 ≠ toString (800 * 1000) ∧
    (subtaskTerminal regEnvAll 7 res360 ⟨true, ""⟩).2 =
      .resolved ⟨res360, "360p/index.m3u8", "800"⟩ := by
  refine ⟨by decide, by decide, by decide⟩

/-- Claim C4 (code bug): `JSON.parse` runs before the consumer's `try`
block, so a malformed payload throws out of the callback: the message
is neither acked nor nacked (it stays unacknowledged), contrary to the
claimed reject-without-requeue. -/
theorem malformed_payload_unacknowledged (env : RegistryEnv)
    (base : String) (outcomes : List EncodeOutcome) :
    consumeMessage env base outcomes .malformed = ([], .unhandledException) ∧
    (∀ b, (consumeMessage env base outcomes .malformed).2 ≠ .nacked b) ∧
    (consumeMessage env base outcomes .malformed).2 ≠ .acked := by
  refine ⟨rfl, fun b => by simp [consumeMessage], by simp [consumeMessage]⟩

/-- Claim C5 counterexample: every encode succeeds but the
videos/create registry call fails; the manifest was written, yet the
consumer nacks the message instead of acking it. -/
theorem registry_failure_not_acked_counterexample :
    (consumeMessage ⟨true, true, false, true⟩ "/out" [⟨true, ""⟩]
        (.wellFormed job360)).1.filter isWriteFile ≠ [] ∧
    (consumeMessage ⟨true, true, false, true⟩ "/out" [⟨true, ""⟩]
        (.wellFormed job360)).2 = .nacked false ∧
    (ConsumerResult.nacked false ≠ .acked) := by
  refine ⟨by decide, rfl, by decide⟩

/-- Claim C5 (amended): when every encode succeeds and a follow-up
registry call (videos/create or the Completed update) fails, the
manifest stays written, but the thrown error propagates: the consumer
rejects the message without requeue rather than acknowledging it. -/
theorem registry_failure_manifest_kept_nacked (env : RegistryEnv) (base : String)
    (job : VideoTranscodeJob) (outcomes : List EncodeOutcome)
    (hlen : job.resolutions.length ≤ outcomes.length)
    (hok : ∀ rq ∈ job.resolutions.zip outcomes, rq.2.ok = true)
    (hreg : env.videosCreateOk = false ∨ env.completedReportOk = false) :
    Event.writeFile (pathJoin base "master.m3u8")
        (manifestContent (job.resolutions.map mkPlaylist)) ∈
      (consumeMessage env base outcomes (.wellFormed job)).1 ∧
    (consumeMessage env base outcomes (.wellFormed job)).2 = .nacked false := by
  obtain ⟨hmem, hfailflag, -⟩ :=
    transcodeVideo_ok_spec env base job.resolutions job.queuedTaskId outcomes hlen hok
  refine ⟨?_, consumeMessage_snd_failed env base outcomes job "registry error" (hfailflag hreg)⟩
  rw [consumeMessage_fst]
  exact hmem

/-- Claim C5 witness: one successful rendition, videos/create down. -/
theorem registry_failure_manifest_kept_nacked_witness :
    job360.resolutions.length ≤ ([(⟨true, ""⟩ : EncodeOutcome)]).length ∧
    ((⟨true, true, false, true⟩ : RegistryEnv).videosCreateOk = false ∨
      (⟨true, true, false, true⟩ : RegistryEnv).completedReportOk = false) ∧
    (consumeMessage ⟨true, true, false, true⟩ "/out" [⟨true, ""⟩]
        (.wellFormed job360)).2 = .nacked false :=
  ⟨by decide, Or.inl rfl,
    (registry_failure_manifest_kept_nacked ⟨true, true, false, true⟩ "/out" job360
      [⟨true, ""⟩] (by decide) (by decide) (Or.inl rfl)).2⟩

/-- Claim C6 counterexample: the scheduler never advances a task's
status after publishing (the update is disabled in source), so with the
message still unconsumed (depth 1) and the registry still returning the
task, the next cycle publishes a duplicate job message. -/
theorem duplicate_publish_counterexample :
    publishedPayloads
        (processPendingTasks (schedEnv 0) ++ processPendingTasks (schedEnv 1)) =
      [jobPayload 111 task0, jobPayload 111 task0] ∧
    (processPendingTasks (schedEnv 0)).filterMap statusOfEvent = [] := by
  refine ⟨by decide, by decide⟩

/-- Claim C6 (amended): after a successful publish, `processTask`'s
trace is exactly the publish event — the pipeline does not advance the
task's status past "pending", so a later cycle with capacity whose
registry fetch still returns the task will publish again. -/
theorem publish_leaves_status_unchanged (env : SchedulerEnv) (task : Task)
    (h : env.publishOk task = true) :
    processTask env task = [Event.publish QUEUE_NAME (jobPayload env.nowMs task)] ∧
    (processTask env task).filterMap statusOfEvent = [] := by
  have htr : processTask env task =
      [Event.publish QUEUE_NAME (jobPayload env.nowMs task)] := by
    simp [processTask, h]
  exact ⟨htr, by rw [htr]; rfl⟩

/-- Claim C6 witness. -/
theorem publish_leaves_status_unchanged_witness :
    (schedEnv 0).publishOk task0 = true ∧
    processTask (schedEnv 0) task0 = [Event.publish QUEUE_NAME (jobPayload 111 task0)] :=
  ⟨rfl, (publish_leaves_status_unchanged (schedEnv 0) task0 rfl).1⟩

/-- Claim C7: with the module channel not yet assigned by the connect
step, `getChannel` and with it every transport operation — publish
(producer), consume (consumer setup), depth (scheduler) — fails with
the "not initialized" error. -/
theorem uninitialized_channel_errors :
    getChannel none = .error "RabbitMQ channel not initialized" ∧
    (∀ p, sendTranscodeVideoJob none p = .error "RabbitMQ channel not initialized") ∧
    startConsumerSetup none = .error "RabbitMQ channel not initialized" ∧
    getAvailableQueueSlots none = .error "RabbitMQ channel not initialized" :=
  ⟨rfl, fun _ => rfl, rfl, rfl⟩

/-- Claim C8 counterexample: the written manifest differs from the
spec-side form whose BANDWIDTH is bits per second (`bitrate * 1000`):
at 800 kilobit/s the descriptor carries `BANDWIDTH=800`, not
`BANDWIDTH=800000`. -/
theorem manifest_bandwidth_counterexample :
    manifestContent [mkPlaylist res360] ≠ manifestContentSpec [res360] ∧
    Event.writeFile (pathJoin "/out" "master.m3u8")
        (manifestContent [mkPlaylist res360]) ∈
      (transcodeVideo regEnvAll "/out" [res360] 7 [⟨true, ""⟩]).1 := by
  refine ⟨by decide, by decide⟩

/-- Claim C8 (amended): for every successful job the written manifest
is the newline-join of the `#EXTM3U` marker line followed, for each
requested resolution in order, by its stream-descriptor line
(`BANDWIDTH=` the source's bandwidth string `,RESOLUTION=<w>x<h>`) and
the relative path of that resolution's sub-playlist. -/
theorem manifest_structure (env : RegistryEnv) (base : String)
    (job : VideoTranscodeJob) (outcomes : List EncodeOutcome)
    (hlen : job.resolutions.length ≤ outcomes.length)
    (hok : ∀ rq ∈ job.resolutions.zip outcomes, rq.2.ok = true)
    (hne : job.resolutions ≠ []) :
    Event.writeFile (pathJoin base "master.m3u8")
        (joinNewline ("#EXTM3U" :: job.resolutions.flatMap fun r =>
          [streamDescriptorLine r, relativePlaylistPath r])) ∈
      (consumeMessage env base outcomes (.wellFormed job)).1 := by
  rw [consumeMessage_fst, ← manifestContent_eq_lines job.resolutions hne]
  exact (transcodeVideo_ok_spec env base job.resolutions job.queuedTaskId
    outcomes hlen hok).1

/-- Claim C8 witness: one 360p rendition. -/
theorem manifest_structure_witness :
    job360.resolutions ≠ [] ∧
    Event.writeFile (pathJoin "/out" "master.m3u8")
        (joinNewline ("#EXTM3U" :: job360.resolutions.flatMap fun r =>
          [streamDescriptorLine r, relativePlaylistPath r])) ∈
      (consumeMessage regEnvAll "/out" [⟨true, ""⟩] (.wellFormed job360)).1 :=
  ⟨by decide,
    manifest_structure regEnvAll "/out" job360 [⟨true, ""⟩]
      (by decide) (by decide) (by decide)⟩

/-- Claim C9: a sub-task's working directory and relative playlist path
are determined solely by the resolution's height, so renditions of
equal height target the identical directory and manifest path. -/
theorem paths_depend_only_on_height (outDir : String)
    (r1 r2 : VideoUploadResolution) (h : r1.height = r2.height) :
    resFolder outDir r1 = resFolder outDir r2 ∧
    relativePlaylistPath r1 = relativePlaylistPath r2 := by
  constructor <;> simp [resFolder, resFolderName, relativePlaylistPath, h]

/-- Claim C9 witness: 640x360 and 480x360 share folder and path. -/
theorem paths_depend_only_on_height_witness :
    res360.height = res360b.height ∧
    resFolder "/out" res360 = resFolder "/out" res360b ∧
    relativePlaylistPath res360 = relativePlaylistPath res360b :=
  ⟨by decide,
    (paths_depend_only_on_height "/out" res360 res360b (by decide)).1,
    (paths_depend_only_on_height "/out" res360 res360b (by decide)).2⟩

/-- Claim C10: with capacity available and the registry reachable, the
cycle's trace is the depth query, the fetch, then each returned task's
events strictly in registry order, and the published payloads are
exactly those of the tasks whose publish succeeded, in that order. -/
theorem publishes_preserve_registry_order (env : SchedulerEnv) (c : Channel)
    (hc : env.channel = some c)
    (hcap : 0 < (MAX_QUEUE_CAPACITY : Int) - (c.messageCount : Int))
    (hreg : env.registryOk = true) :
    processPendingTasks env =
      [Event.checkQueue QUEUE_NAME,
       Event.registryFetch ((MAX_QUEUE_CAPACITY : Int) - (c.messageCount : Int))] ++
        env.registryTasks.flatMap (processTask env) ∧
    publishedPayloads (processPendingTasks env) =
      (env.registryTasks.filter env.publishOk).map (jobPayload env.nowMs) := by
  have htr : processPendingTasks env =
      [Event.checkQueue QUEUE_NAME,
       Event.registryFetch ((MAX_QUEUE_CAPACITY : Int) - (c.messageCount : Int))] ++
        env.registryTasks.flatMap (processTask env) := by
    have hnotfull : ¬((MAX_QUEUE_CAPACITY : Int) - (c.messageCount : Int) ≤ 0) :=
      not_le.mpr hcap
    unfold processPendingTasks
    rw [hc]
    simp [hnotfull, fetchPendingTasks, hreg]
  refine ⟨htr, ?_⟩
  rw [htr, publishedPayloads_append, publishedPayloads_batch]
  rfl

/-- Claim C10 witness: depth 3, one pending task, publish succeeding. -/
theorem publishes_preserve_registry_order_witness :
    (schedEnv 3).channel = some ⟨3⟩ ∧
    (0 < (MAX_QUEUE_CAPACITY : Int) - ((3 : Nat) : Int)) ∧
    publishedPayloads (processPendingTasks (schedEnv 3)) =
      ((schedEnv 3).registryTasks.filter (schedEnv 3).publishOk).map
        (jobPayload (schedEnv 3).nowMs) :=
  ⟨rfl, by decide,
    (publishes_preserve_registry_order (schedEnv 3) ⟨3⟩ rfl (by decide) rfl).2⟩

end Transcoding
